import Mathlib

/-
Verification of the universal Raspberry Pi console driver
(src/toolchain/kernel.c) against its natural-language specification.

The C code is shallowly embedded: the global `universal_console_t console`
becomes an explicit state record threaded through the operations, machine
integers (uint32_t / int / int8_t / uint8_t) become Nat / Int with explicit
reductions modulo 2^32 (resp. sign decoding) exactly where the C performs a
conversion, and hardware reads (safe_peek32, the mailbox rendezvous, PS/2
data registers) become explicit oracle parameters: a memory environment
`Nat → Nat` for probed addresses and response records for the values the
firmware writes back into the mailbox request block.  Rendering writes
pixels only; framebuffer memory is modelled as a separate word-indexed
map `Nat → Nat` that the renderer transforms.
-/

namespace Kernel

/-- Reduction of a Nat to its value as a C uint32_t (mod 2^32). -/
def u32 (n : Nat) : Nat := n % 4294967296

/-- uint32_t subtraction `a - b` (wrapping), for operands already < 2^32. -/
def sub32 (a b : Nat) : Nat := (a % 4294967296 + 4294967296 - b % 4294967296) % 4294967296

/-- Value of a uint32_t bit pattern reinterpreted as a C int (int32_t),
as happens at `(int)` casts in the source. -/
def toInt32 (n : Nat) : Int :=
  if n % 4294967296 < 2147483648 then (n % 4294967296 : Int)
  else (n % 4294967296 : Int) - 4294967296

/-- Value of a byte reinterpreted as a C int8_t, as in `(int8_t)mouse_packet[1]`. -/
def toInt8 (n : Nat) : Int :=
  if n % 256 < 128 then (n % 256 : Int) else (n % 256 : Int) - 256

/-- Conversion of a C int back to a uint32_t storage slot. -/
def u32ofInt (i : Int) : Nat := (i % 4294967296).toNat

-- ---------------------------------------------------------------------------
-- Hardware constants (kernel.c lines 41-63)
-- ---------------------------------------------------------------------------

def BCM2835_PERIPHERAL_BASE : Nat := 0x20000000
def BCM2836_PERIPHERAL_BASE : Nat := 0x3F000000
def BCM2711_PERIPHERAL_BASE : Nat := 0xFE000000

def QEMU_PL050_KBD_BASE : Nat := 0x10007000
def QEMU_PL050_MOUSE_BASE : Nat := 0x10008000
def QEMU_PL011_UART_BASE : Nat := 0x101F1000
def QEMU_CLCD_BASE : Nat := 0x10120000

def GPIO_OFFSET : Nat := 0x200000
def UART_OFFSET : Nat := 0x201000
def MAILBOX_OFFSET : Nat := 0x00B880
def USB_OFFSET : Nat := 0x980000

def FONT_WIDTH : Nat := 8
def FONT_HEIGHT : Nat := 16
def MIN_CONSOLE_COLS : Nat := 40
def MIN_CONSOLE_ROWS : Nat := 15
def MAX_BUFFER_LINES : Nat := 3000
def STATUS_BAR_HEIGHT : Nat := FONT_HEIGHT

def COLOR_BLACK : Nat := 0xFF000000
def COLOR_GREEN : Nat := 0xFF00AA00
def COLOR_CYAN : Nat := 0xFF00AAAA
def COLOR_DARK_GRAY : Nat := 0xFF555555
def COLOR_YELLOW : Nat := 0xFFFFFF55
def COLOR_WHITE : Nat := 0xFFFFFFFF

-- ---------------------------------------------------------------------------
-- Platform detection (kernel.c lines 16-211)
-- ---------------------------------------------------------------------------

/-- platform_type_t (kernel.c lines 16-24). -/
inductive platform_type_t where
  | PLATFORM_UNKNOWN
  | PLATFORM_PI_BCM2835
  | PLATFORM_PI_BCM2836
  | PLATFORM_PI_BCM2837
  | PLATFORM_PI_BCM2837B0
  | PLATFORM_PI_BCM2711
  | PLATFORM_QEMU_VERSATILE
deriving DecidableEq

export platform_type_t (PLATFORM_UNKNOWN PLATFORM_PI_BCM2835 PLATFORM_PI_BCM2836
  PLATFORM_PI_BCM2837 PLATFORM_PI_BCM2837B0 PLATFORM_PI_BCM2711 PLATFORM_QEMU_VERSATILE)

/-- platform_info_t (kernel.c lines 26-36). -/
structure platform_info_t where
  platform : platform_type_t
  peripheral_base : Nat
  mailbox_base : Nat
  gpio_base : Nat
  uart_base : Nat
  usb_base : Nat
  name : String
  has_usb : Bool
  has_ps2 : Bool

/-- Memory environment: the value a 32-bit read at a given physical address
returns.  safe_peek32 (kernel.c lines 131-138) reports a probe as present
exactly when the value is neither all-ones nor all-zero. -/
def safe_peek32 (env : Nat → Nat) (address : Nat) : Bool :=
  env address != 0xFFFFFFFF && env address != 0x00000000

/-- detect_platform (kernel.c lines 140-211), as a function of the probe
environment.  Each branch fully populates the profile exactly as the source
does. -/
def detect_platform (env : Nat → Nat) : platform_info_t :=
  -- QEMU versatilepb first (most specific): PL050 status register probe
  if safe_peek32 env (QEMU_PL050_KBD_BASE + 0x04) &&
     (env (QEMU_PL050_KBD_BASE + 0x04) &&& 0xFF) != 0xFF then
    { platform := PLATFORM_QEMU_VERSATILE
      peripheral_base := 0x10000000
      mailbox_base := 0
      gpio_base := QEMU_PL050_KBD_BASE
      uart_base := QEMU_PL011_UART_BASE
      usb_base := 0
      name := "QEMU ARM Versatile PB"
      has_usb := false
      has_ps2 := true }
  else if safe_peek32 env (BCM2711_PERIPHERAL_BASE + MAILBOX_OFFSET + 0x18) then
    { platform := PLATFORM_PI_BCM2711
      peripheral_base := BCM2711_PERIPHERAL_BASE
      mailbox_base := BCM2711_PERIPHERAL_BASE + MAILBOX_OFFSET
      gpio_base := BCM2711_PERIPHERAL_BASE + GPIO_OFFSET
      uart_base := BCM2711_PERIPHERAL_BASE + UART_OFFSET
      usb_base := BCM2711_PERIPHERAL_BASE + USB_OFFSET
      name := "Raspberry Pi 4/400/CM4 (BCM2711)"
      has_usb := true
      has_ps2 := false }
  else if safe_peek32 env (BCM2836_PERIPHERAL_BASE + MAILBOX_OFFSET + 0x18) then
    -- secondary probe: ARM timer register distinguishes BCM2836 from BCM2837
    let p :=
      if safe_peek32 env (BCM2836_PERIPHERAL_BASE + 0x40000) then
        (PLATFORM_PI_BCM2837, "Raspberry Pi 2/3/Zero2W (BCM2836/2837)")
      else
        (PLATFORM_PI_BCM2836, "Raspberry Pi 2 (BCM2836)")
    { platform := p.1
      peripheral_base := BCM2836_PERIPHERAL_BASE
      mailbox_base := BCM2836_PERIPHERAL_BASE + MAILBOX_OFFSET
      gpio_base := BCM2836_PERIPHERAL_BASE + GPIO_OFFSET
      uart_base := BCM2836_PERIPHERAL_BASE + UART_OFFSET
      usb_base := BCM2836_PERIPHERAL_BASE + USB_OFFSET
      name := p.2
      has_usb := true
      has_ps2 := false }
  else
    { platform := PLATFORM_PI_BCM2835
      peripheral_base := BCM2835_PERIPHERAL_BASE
      mailbox_base := BCM2835_PERIPHERAL_BASE + MAILBOX_OFFSET
      gpio_base := BCM2835_PERIPHERAL_BASE + GPIO_OFFSET
      uart_base := BCM2835_PERIPHERAL_BASE + UART_OFFSET
      usb_base := BCM2835_PERIPHERAL_BASE + USB_OFFSET
      name := "Raspberry Pi 1/Zero (BCM2835)"
      has_usb := true
      has_ps2 := false }

/-- mailbox_available (kernel.c lines 227-230). -/
def mailbox_available (p : platform_info_t) : Bool :=
  p.mailbox_base != 0 && p.platform != PLATFORM_QEMU_VERSATILE

-- ---------------------------------------------------------------------------
-- Console state (kernel.c lines 87-125)
-- ---------------------------------------------------------------------------

/-- console_cell_t (kernel.c lines 87-92).  `character` holds the byte value. -/
structure console_cell_t where
  character : Nat
  foreground : Nat
  background : Nat
  attributes : Nat
deriving DecidableEq

/-- universal_console_t (kernel.c lines 94-123).  The cell buffer, indexed in C
by `line * console_cols + col`, is modelled as a function of (line, col); the
two views agree because every access goes through `get_cell`, which bounds
`col < console_cols`.  `framebuffer` is the configured base address (NULL
becomes `none`).  `scroll_events` is a ghost counter, incremented exactly on
each `scroll_buffer_up` call, used only to state how many shift-scrolls a run
performs; no other definition reads it. -/
structure universal_console_t where
  framebuffer : Option Nat
  width : Nat
  height : Nat
  pitch : Nat
  console_cols : Nat
  console_rows : Nat
  buffer : Nat → Nat → console_cell_t
  buffer_lines : Nat
  current_line : Nat
  current_col : Nat
  display_start : Nat
  current_fg : Nat
  current_bg : Nat
  cursor_visible : Bool
  cursor_blink_counter : Nat
  mouse_x : Int
  mouse_y : Int
  mouse_buttons : Nat
  mouse_available : Bool
  keyboard_available : Bool
  total_chars : Nat
  scroll_position : Nat
  scroll_events : Nat

/-- static universal_console_t console = {0} (kernel.c line 125). -/
def console_zero : universal_console_t where
  framebuffer := none
  width := 0
  height := 0
  pitch := 0
  console_cols := 0
  console_rows := 0
  buffer := fun _ _ => { character := 0, foreground := 0, background := 0, attributes := 0 }
  buffer_lines := 0
  current_line := 0
  current_col := 0
  display_start := 0
  current_fg := 0
  current_bg := 0
  cursor_visible := false
  cursor_blink_counter := 0
  mouse_x := 0
  mouse_y := 0
  mouse_buttons := 0
  mouse_available := false
  keyboard_available := false
  total_chars := 0
  scroll_position := 0
  scroll_events := 0

-- ---------------------------------------------------------------------------
-- Display detection and setup (kernel.c lines 255-456)
-- ---------------------------------------------------------------------------

/-- Fields of the display_request_t block after the physical-size query
returns: the firmware overwrites `code`, `physical_width`, `physical_height`
in place.  These response values are inputs to the model. -/
structure size_response_t where
  code : Nat
  physical_width : Nat
  physical_height : Nat

/-- Fields of the display_request_t block after the framebuffer allocation
round trip: the firmware overwrites the overall `code`, the negotiated
`set_width`/`set_height`, the device-side `fb_address`, `fb_size` and the
byte `pitch` in place. -/
structure fb_response_t where
  code : Nat
  set_width : Nat
  set_height : Nat
  fb_address : Nat
  fb_size : Nat
  pitch : Nat

/-- detect_display_resolution (kernel.c lines 302-352).  Returns the C result
code together with the width/height written through the out-parameters. -/
def detect_display_resolution (p : platform_info_t) (resp : size_response_t) :
    Int × Nat × Nat :=
  if p.platform = PLATFORM_QEMU_VERSATILE then
    (0, 640, 480)
  else if ¬ mailbox_available p then
    (-1, 640, 480)
  else if resp.code = 0x80000000 ∧ resp.physical_width > 0 ∧ resp.physical_height > 0 then
    (0, resp.physical_width, resp.physical_height)
  else
    match p.platform with
    | PLATFORM_PI_BCM2711 => (-1, 1920, 1080)
    | PLATFORM_PI_BCM2837 => (-1, 1680, 1050)
    | PLATFORM_PI_BCM2837B0 => (-1, 1680, 1050)
    | PLATFORM_PI_BCM2836 => (-1, 1280, 1024)
    | _ => (-1, 1024, 768)

/-- GPU-to-ARM address conversion, the switch inside setup_framebuffer
(kernel.c lines 424-440).  Older VideoCore IV families mask the bus alias
bits; BCM2711 subtracts the 0xC0000000 window when the address lies in it;
the remaining discriminants leave the address unchanged (no case label). -/
def translate_fb_address (t : platform_type_t) (fb_address : Nat) : Nat :=
  match t with
  | PLATFORM_PI_BCM2835 => fb_address &&& 0x3FFFFFFF
  | PLATFORM_PI_BCM2836 => fb_address &&& 0x3FFFFFFF
  | PLATFORM_PI_BCM2837 => fb_address &&& 0x3FFFFFFF
  | PLATFORM_PI_BCM2837B0 => fb_address &&& 0x3FFFFFFF
  | PLATFORM_PI_BCM2711 =>
      if fb_address ≥ 0xC0000000 then fb_address - 0xC0000000 else fb_address
  | _ => fb_address

/-- setup_framebuffer (kernel.c lines 354-456).  `none` models the -1 return.
The QEMU path installs the fixed RAM framebuffer and computes the console
geometry with no minimum clamp; the mailbox path checks the overall response
code, translates the device address, and clamps the geometry to the minima. -/
def setup_framebuffer (p : platform_info_t) (resp : fb_response_t)
    (width height : Nat) (s : universal_console_t) : Option universal_console_t :=
  if p.platform = PLATFORM_QEMU_VERSATILE then
    some { s with
      framebuffer := some 0x200000
      width := width
      height := height
      pitch := width
      console_cols := width / FONT_WIDTH
      console_rows := sub32 height STATUS_BAR_HEIGHT / FONT_HEIGHT }
  else if ¬ mailbox_available p then
    none
  else if resp.code ≠ 0x80000000 then
    none
  else
    let fb_address := translate_fb_address p.platform resp.fb_address
    let cols := resp.set_width / FONT_WIDTH
    let rows := sub32 resp.set_height STATUS_BAR_HEIGHT / FONT_HEIGHT
    some { s with
      framebuffer := some fb_address
      width := resp.set_width
      height := resp.set_height
      pitch := resp.pitch / 4
      console_cols := if cols < MIN_CONSOLE_COLS then MIN_CONSOLE_COLS else cols
      console_rows := if rows < MIN_CONSOLE_ROWS then MIN_CONSOLE_ROWS else rows }

/-- init_ps2_devices (kernel.c lines 485-494); the mouse reset/enable writes
touch only the device, the console state effect is the two flags. -/
def init_ps2_devices (p : platform_info_t) (s : universal_console_t) :
    universal_console_t :=
  if p.platform = PLATFORM_QEMU_VERSATILE then
    { s with mouse_available := true, keyboard_available := true }
  else s

-- ---------------------------------------------------------------------------
-- Console buffer management (kernel.c lines 500-554)
-- ---------------------------------------------------------------------------

/-- init_console_buffer (kernel.c lines 500-525).  Cells are initialised for
indices below both `buffer_lines * console_cols` and the static capacity
3000 * 240 = 720000; cells beyond the capacity keep their zero-initialised
contents. -/
def init_console_buffer (s : universal_console_t) : universal_console_t :=
  { s with
    buffer_lines := MAX_BUFFER_LINES
    buffer := fun line col =>
      if line * s.console_cols + col < MAX_BUFFER_LINES * s.console_cols ∧
         line * s.console_cols + col < 720000 then
        { character := 32, foreground := COLOR_WHITE, background := COLOR_BLACK,
          attributes := 0 }
      else
        { character := 0, foreground := 0, background := 0, attributes := 0 }
    current_line := 0
    current_col := 0
    display_start := 0
    current_fg := COLOR_WHITE
    current_bg := COLOR_BLACK
    cursor_visible := true
    scroll_position := 0
    scroll_events := 0 }

/-- Console state right after init_console_buffer for a negotiated geometry,
the initial state the buffer-level claims start from. -/
def fresh_console (cols rows : Nat) : universal_console_t :=
  init_console_buffer { console_zero with console_cols := cols, console_rows := rows }

/-- get_cell (kernel.c lines 527-532). -/
def get_cell (s : universal_console_t) (line col : Nat) : Option console_cell_t :=
  if col ≥ s.console_cols ∨ line ≥ s.buffer_lines then none
  else some (s.buffer line col)

/-- scroll_buffer_up (kernel.c lines 534-554).  The shift loop reads each
source line before it is overwritten, so the result is the pointwise image of
the original buffer; the last line is cleared to the pending colors.  Columns
at or beyond `console_cols` have no C storage and stay untouched.  The ghost
`scroll_events` counter records the call. -/
def scroll_buffer_up (s : universal_console_t) : universal_console_t :=
  { s with
    buffer := fun line col =>
      if line < s.buffer_lines - 1 ∧ col < s.console_cols then
        s.buffer (line + 1) col
      else if line = s.buffer_lines - 1 ∧ col < s.console_cols then
        { character := 32, foreground := s.current_fg, background := s.current_bg,
          attributes := 0 }
      else
        s.buffer line col
    scroll_events := s.scroll_events + 1 }

-- ---------------------------------------------------------------------------
-- Console output (kernel.c lines 759-839) and input processing (667-753)
-- ---------------------------------------------------------------------------

/-- Body of the '\n' case of console_putchar (kernel.c lines 761-775): reset
column, advance line, shift-scroll on buffer exhaustion, auto-follow the
cursor.  Factored out because the '\t' and printable cases re-enter it via
`console_putchar('\n')`. -/
def console_newline (s : universal_console_t) : universal_console_t :=
  let s1 := { s with current_col := 0, current_line := u32 (s.current_line + 1) }
  let s2 :=
    if s1.current_line ≥ s1.buffer_lines then
      { scroll_buffer_up s1 with current_line := sub32 s1.buffer_lines 1 }
    else s1
  if s2.current_line ≥ u32 (s2.display_start + s2.console_rows) then
    let ds := u32 (sub32 s2.current_line s2.console_rows + 1)
    { s2 with display_start := ds, scroll_position := ds }
  else s2

/-- console_putchar (kernel.c lines 759-819) over the byte value of the
argument. -/
def console_putchar (s : universal_console_t) (c : Nat) : universal_console_t :=
  if c = 10 then
    console_newline s
  else if c = 13 then
    { s with current_col := 0 }
  else if c = 9 then
    let s1 := { s with current_col := u32 (s.current_col + 8) &&& 0xFFFFFFF8 }
    if s1.current_col ≥ s1.console_cols then console_newline s1 else s1
  else if c = 8 then
    if s.current_col > 0 then
      let col := s.current_col - 1
      let s1 := { s with current_col := col }
      if col < s1.console_cols ∧ s1.current_line < s1.buffer_lines then
        { s1 with buffer := fun l c2 =>
            if l = s1.current_line ∧ c2 = col then
              { (s1.buffer l c2) with
                character := 32
                foreground := s1.current_fg
                background := s1.current_bg }
            else s1.buffer l c2 }
      else s1
    else s
  else if 32 ≤ c ∧ c ≤ 126 then
    let s1 :=
      if s.current_col < s.console_cols ∧ s.current_line < s.buffer_lines then
        { s with buffer := fun l c2 =>
            if l = s.current_line ∧ c2 = s.current_col then
              { character := c, foreground := s.current_fg, background := s.current_bg,
                attributes := 0 }
            else s.buffer l c2 }
      else s
    let s2 := { s1 with current_col := u32 (s1.current_col + 1),
                        total_chars := u32 (s1.total_chars + 1) }
    if s2.current_col ≥ s2.console_cols then console_newline s2 else s2
  else s

/-- console_puts (kernel.c lines 821-825). -/
def console_puts (s : universal_console_t) (str : String) : universal_console_t :=
  str.data.foldl (fun s ch => console_putchar s ch.toNat) s

/-- console_set_color (kernel.c lines 836-839). -/
def console_set_color (fg bg : Nat) (s : universal_console_t) : universal_console_t :=
  { s with current_fg := fg, current_bg := bg }

/-- handle_scroll (kernel.c lines 667-681).  The trailing render_console call
writes pixels only and does not touch this state.  All arithmetic happens on
C ints, hence the explicit int32 reads of the uint32 fields. -/
def handle_scroll (s : universal_console_t) (delta : Int) : universal_console_t :=
  let new0 : Int := toInt32 s.scroll_position + delta
  let new1 : Int := if new0 < 0 then 0 else new0
  let max0 : Int := toInt32 s.current_line - toInt32 s.console_rows + 1
  let max1 : Int := if max0 < 0 then 0 else max0
  let new2 : Int := if new1 > max1 then max1 else new1
  if new2 ≠ toInt32 s.scroll_position then
    { s with scroll_position := u32ofInt new2, display_start := u32ofInt new2 }
  else s

/-- handle_keyboard_input (kernel.c lines 721-753) as a function of the
scancode read from the PL050 data register; ps2_read_data yields 0 when no
byte is pending and the handler returns on 0. -/
def handle_keyboard_input (s : universal_console_t) (scancode : Nat) :
    universal_console_t :=
  if scancode = 0 then s
  else if scancode = 0x48 then handle_scroll s (-1)
  else if scancode = 0x50 then handle_scroll s 1
  else if scancode = 0x49 then handle_scroll s (-(toInt32 s.console_rows))
  else if scancode = 0x51 then handle_scroll s (toInt32 s.console_rows)
  else if scancode = 0x47 then
    { s with scroll_position := 0, display_start := 0 }
  else if scancode = 0x4F then
    { s with scroll_position := s.current_line,
             display_start :=
               if s.current_line ≥ s.console_rows then
                 u32 (sub32 s.current_line s.console_rows + 1)
               else 0 }
  else s

/-- Third-byte decode step of handle_mouse_input (kernel.c lines 694-718),
as a function of the three accumulated packet bytes.  Position updates and
clamping happen before the right-button scroll; the button mask is stored
last. -/
def handle_mouse_input (s : universal_console_t) (p0 p1 p2 : Nat) :
    universal_console_t :=
  let buttons := p0 % 256
  let delta_x := toInt8 p1
  let delta_y := toInt8 p2
  let x0 := s.mouse_x + delta_x
  let y0 := s.mouse_y - delta_y
  let x1 := if x0 < 0 then 0 else x0
  let y1 := if y0 < 0 then 0 else y0
  let x2 := if x1 ≥ toInt32 s.width then toInt32 (sub32 s.width 1) else x1
  let y2 := if y1 ≥ toInt32 s.height then toInt32 (sub32 s.height 1) else y1
  let s1 := { s with mouse_x := x2, mouse_y := y2 }
  let s2 :=
    if buttons &&& 0x02 ≠ 0 ∧ delta_y ≠ 0 then
      handle_scroll s1 (if delta_y > 0 then 3 else -3)
    else s1
  { s2 with mouse_buttons := buttons }

-- ---------------------------------------------------------------------------
-- Font and rendering (qemu_vga_font.h; kernel.c lines 560-661)
-- ---------------------------------------------------------------------------

/-- qemu_vga_font_8x16 (qemu_vga_font.h): a 256*16-byte table whose every
entry is the placeholder byte 0xFF. -/
def qemu_vga_font_8x16 (i : Nat) : Nat :=
  if i < 256 * 16 then 0xFF else 0

/-- get_font_char (kernel.c lines 560-562), row `row` of the glyph for byte
`c`; the `(uint8_t)c` conversion at the call site is the `% 256`. -/
def get_font_char (c row : Nat) : Nat :=
  qemu_vga_font_8x16 (c % 256 * 16 + row)

/-- Framebuffer memory: value of each 32-bit pixel slot, indexed as the C
code indexes `console.framebuffer`. -/
def fb_write (fb : Nat → Nat) (i v : Nat) : Nat → Nat :=
  fun j => if j = i then v else fb j

/-- draw_char_at (kernel.c lines 564-579). -/
def draw_char_at (s : universal_console_t) (x y c fg bg : Nat) (fb : Nat → Nat) :
    Nat → Nat :=
  if s.framebuffer.isNone ∨ x + FONT_WIDTH > s.width ∨ y + FONT_HEIGHT > s.height then
    fb
  else
    (List.range FONT_HEIGHT).foldl (fun fb row =>
      let font_row := get_font_char c row
      (List.range FONT_WIDTH).foldl (fun fb col =>
        fb_write fb ((y + row) * s.pitch + x + col)
          (if font_row &&& (0x80 >>> col) ≠ 0 then fg else bg)) fb) fb

/-- clear_screen (kernel.c lines 585-594). -/
def clear_screen (s : universal_console_t) (color : Nat) (fb : Nat → Nat) :
    Nat → Nat :=
  if s.framebuffer.isNone then fb
  else
    (List.range s.height).foldl (fun fb y =>
      (List.range s.width).foldl (fun fb x =>
        fb_write fb (y * s.pitch + x) color) fb) fb

/-- Decimal rendering of a uint32 value read through an `int` vararg, as the
%d conversions of the status snprintf do. -/
def int32str (n : Nat) : String := toString (toInt32 n)

/-- Status line text built by the snprintf in draw_status_bar (kernel.c lines
608-615). -/
def status_text (p : platform_info_t) (s : universal_console_t) : String :=
  p.name ++ " | " ++ int32str s.width ++ "x" ++ int32str s.height ++
  " | L:" ++ int32str (u32 (s.current_line + 1)) ++
  " C:" ++ int32str (u32 (s.current_col + 1)) ++
  " | Scroll:" ++ int32str s.scroll_position ++
  " | Inputs: " ++ (if p.has_ps2 then "PS2 " else "") ++
  (if p.has_usb then "USB " else "UART")

/-- draw_status_bar (kernel.c lines 596-621): dark-gray band over the bottom
STATUS_BAR_HEIGHT pixel rows, overlaid with the formatted status line,
truncated by the 256-byte snprintf buffer and by the pixel width. -/
def draw_status_bar (p : platform_info_t) (s : universal_console_t)
    (fb : Nat → Nat) : Nat → Nat :=
  let status_y := sub32 s.height STATUS_BAR_HEIGHT
  let fb1 := (List.range (s.height - status_y)).foldl (fun fb dy =>
    (List.range s.width).foldl (fun fb x =>
      fb_write fb ((status_y + dy) * s.pitch + x) COLOR_DARK_GRAY) fb) fb
  let t := (status_text p s).take 255
  (List.range (min t.length (s.width / FONT_WIDTH))).foldl (fun fb i =>
    draw_char_at s (i * FONT_WIDTH) status_y ((t.data.getD i (Char.ofNat 0)).toNat)
      COLOR_WHITE COLOR_DARK_GRAY fb) fb1

/-- render_console (kernel.c lines 623-661): no-op without a framebuffer;
otherwise clear the main area, draw the visible window (with the blink-phase
cursor inversion), then the status bar.  The C `break` on a line past the
buffer is an if-skip here: `display_start + screen_row` grows with the screen
row, so all later iterations are skipped either way. -/
def render_console (p : platform_info_t) (s : universal_console_t)
    (fb : Nat → Nat) : Nat → Nat :=
  if s.framebuffer.isNone then fb
  else
    let fb1 := (List.range (sub32 s.height STATUS_BAR_HEIGHT)).foldl (fun fb y =>
      (List.range s.width).foldl (fun fb x =>
        fb_write fb (y * s.pitch + x) COLOR_BLACK) fb) fb
    let fb2 := (List.range s.console_rows).foldl (fun fb screen_row =>
      let buffer_line := u32 (s.display_start + screen_row)
      if buffer_line ≥ s.buffer_lines then fb
      else
        (List.range s.console_cols).foldl (fun fb col =>
          match get_cell s buffer_line col with
          | none => fb
          | some cell =>
            let x := col * FONT_WIDTH
            let y := screen_row * FONT_HEIGHT
            let swap := buffer_line = s.current_line ∧ col = s.current_col ∧
              s.cursor_visible ∧ s.cursor_blink_counter &&& 0x20 ≠ 0
            let fg := if swap then cell.background else cell.foreground
            let bg := if swap then cell.foreground else cell.background
            draw_char_at s x y cell.character fg bg fb) fb) fb1
    draw_status_bar p s fb2

-- ---------------------------------------------------------------------------
-- Initialisation (kernel.c lines 845-921)
-- ---------------------------------------------------------------------------

/-- Uppercase hexadecimal digit. -/
def hex_digit (d : Nat) : Char :=
  if d < 10 then Char.ofNat (48 + d) else Char.ofNat (55 + d)

/-- %08X rendering of a uint32 value, for the banner printf. -/
def hex8 (n : Nat) : String :=
  String.mk ((List.range 8).map (fun i => hex_digit (u32 n / 16 ^ (7 - i) % 16)))

/-- Banner output of universal_console_init (kernel.c lines 884-918): the
console_set_color / console_puts / console_printf sequence, with the printf
conversions expanded to the strings they produce. -/
def init_banner (p : platform_info_t) (s : universal_console_t) :
    universal_console_t :=
  let s := console_set_color COLOR_YELLOW COLOR_BLACK s
  let s := console_puts s "CORRECTED Universal Pi Console\n"
  let s := console_puts s "==============================\n\n"
  let s := console_set_color COLOR_CYAN COLOR_BLACK s
  let s := console_puts s ("Platform: " ++ p.name ++ "\n")
  let s := console_puts s ("Peripheral Base: 0x" ++ hex8 p.peripheral_base ++ "\n")
  let s := console_puts s ("Display: " ++ int32str s.width ++ "x" ++ int32str s.height ++
    " (" ++ int32str s.console_cols ++ " x " ++ int32str s.console_rows ++ " chars)\n")
  let s := console_set_color COLOR_WHITE COLOR_BLACK s
  let s := console_puts s "\nSupported Models:\n"
  let s := console_puts s "- Pi 1 A/A+/B/B+ (BCM2835)\n"
  let s := console_puts s "- Pi Zero/Zero W (BCM2835)\n"
  let s := console_puts s "- Pi 2 (BCM2836)\n"
  let s := console_puts s "- Pi 3/3A+/3B+ (BCM2837/B0)\n"
  let s := console_puts s "- Pi Zero 2 W (RP3A0/BCM2837)\n"
  let s := console_puts s "- Pi 4/400 (BCM2711)\n"
  let s := console_puts s "- QEMU versatilepb\n"
  let s := console_puts s "\nInput Support:\n"
  let s :=
    if p.has_ps2 then
      let s := console_puts s "- PS/2 Keyboard and Mouse\n"
      let s := console_puts s "- Arrow keys, Page Up/Down, Home/End\n"
      console_puts s "- Right-click + drag to scroll\n"
    else s
  let s := if p.has_usb then console_puts s "- USB devices supported\n" else s
  let s := console_puts s "- UART console always available\n"
  let s := console_set_color COLOR_GREEN COLOR_BLACK s
  let s := console_puts s "\nHardware-specific console ready!\n\n"
  console_set_color COLOR_WHITE COLOR_BLACK s

/-- universal_console_init (kernel.c lines 845-921) as a function of the probe
environment and the two mailbox responses.  `none` models the -1 return; on
success the resulting console state (after the banner output) is returned.
clear_screen touches pixel memory only. -/
def universal_console_init (env : Nat → Nat) (sizeResp : size_response_t)
    (fbResp : fb_response_t) : Option universal_console_t :=
  let p := detect_platform env
  let r := detect_display_resolution p sizeResp
  let wh :=
    if r.1 ≠ 0 then
      match p.platform with
      | PLATFORM_PI_BCM2711 => (1920, 1080)
      | PLATFORM_PI_BCM2837 => (1680, 1050)
      | PLATFORM_PI_BCM2837B0 => (1680, 1050)
      | PLATFORM_PI_BCM2836 => (1280, 1024)
      | PLATFORM_QEMU_VERSATILE => (640, 480)
      | _ => (1024, 768)
    else (r.2.1, r.2.2)
  match setup_framebuffer p fbResp wh.1 wh.2 console_zero with
  | none => none
  | some s0 =>
    let s1 := init_ps2_devices p s0
    let s2 := init_console_buffer s1
    some (init_banner p s2)

-- ---------------------------------------------------------------------------
-- Shared concrete fixtures
-- ---------------------------------------------------------------------------

/-- Probe environment in which every read returns 0 (all probes fail). -/
def env_zero : Nat → Nat := fun _ => 0

/-- Profile detected when every probe fails: the BCM2835 default. -/
def pi1_profile : platform_info_t := detect_platform env_zero

/-- Probe environment: QEMU and BCM2711 probes fail, the BCM2836-family
mailbox probe succeeds, the secondary ARM-timer probe fails. -/
def env_timer_fail : Nat → Nat := fun a => if a = 0x3F00B898 then 5 else 0

/-- Probe environment whose PL050 keyboard status probe reports a valid PS/2
status byte, so detection claims the QEMU versatilepb profile. -/
def env_qemu : Nat → Nat := fun a => if a = 0x10007004 then 5 else 0

/-- Profile detected under env_qemu: the QEMU versatilepb profile. -/
def qemu_profile : platform_info_t := detect_platform env_qemu

/-- Console state from which the example mouse packet of the claims is
decoded: a 640x480 surface with the pointer at (100, 100). -/
def mouse_state : universal_console_t :=
  { fresh_console 80 25 with width := 640, height := 480, mouse_x := 100, mouse_y := 100 }

/-- Run of n newline characters through console_putchar. -/
def put_newlines (s : universal_console_t) : Nat → universal_console_t
  | 0 => s
  | n + 1 => console_putchar (put_newlines s n) 10

-- ---------------------------------------------------------------------------
-- C2: GPU-to-ARM framebuffer address translation
-- ---------------------------------------------------------------------------

/-- C2: for the BCM2711 profile setup_framebuffer subtracts 0xC0000000 from
the firmware framebuffer address exactly when the address is at or above
0xC0000000, and for each older family it clears the top two bits of the
32-bit address (addr mod 2^30); 0xC0012340 translates to 0x00012340 under
BCM2711 and 0x40012340 translates to 0x00012340 under an older family, and a
successful setup_framebuffer installs exactly the translated address. -/
theorem claim_C2 (p : platform_info_t) (resp : fb_response_t)
    (width height addr : Nat) (s : universal_console_t)
    (hmb : mailbox_available p = true) (hcode : resp.code = 0x80000000) :
    (translate_fb_address PLATFORM_PI_BCM2711 addr =
       if 0xC0000000 ≤ addr then addr - 0xC0000000 else addr) ∧
    translate_fb_address PLATFORM_PI_BCM2835 addr = addr % 0x40000000 ∧
    translate_fb_address PLATFORM_PI_BCM2836 addr = addr % 0x40000000 ∧
    translate_fb_address PLATFORM_PI_BCM2837 addr = addr % 0x40000000 ∧
    translate_fb_address PLATFORM_PI_BCM2837B0 addr = addr % 0x40000000 ∧
    translate_fb_address PLATFORM_PI_BCM2711 0xC0012340 = 0x00012340 ∧
    translate_fb_address PLATFORM_PI_BCM2835 0x40012340 = 0x00012340 ∧
    (setup_framebuffer p resp width height s).map (fun t => t.framebuffer) =
      some (some (translate_fb_address p.platform resp.fb_address)) := by
  have hmask : ∀ a : Nat, a &&& 0x3FFFFFFF = a % 0x40000000 := by
    intro a
    have := Nat.and_pow_two_sub_one_eq_mod a 30
    norm_num at this
    exact this
  have hmb2 := hmb
  simp [mailbox_available, Bool.and_eq_true] at hmb2
  refine ⟨by simp [translate_fb_address], hmask addr, hmask addr, hmask addr, hmask addr,
    by decide, by decide, ?_⟩
  simp [setup_framebuffer, hmb2.2, hmb, hcode]

/-- Witness for claim_C2 at the default-detected BCM2835 profile and a
successful firmware response. -/
theorem claim_C2_witness :
    (mailbox_available pi1_profile = true ∧
     ({ code := 0x80000000, set_width := 640, set_height := 480,
        fb_address := 0x40012340, fb_size := 0, pitch := 2560 } : fb_response_t).code
       = 0x80000000) ∧
    ((translate_fb_address PLATFORM_PI_BCM2711 0x40012340 =
        if 0xC0000000 ≤ 0x40012340 then 0x40012340 - 0xC0000000 else 0x40012340) ∧
     translate_fb_address PLATFORM_PI_BCM2835 0x40012340 = 0x40012340 % 0x40000000 ∧
     translate_fb_address PLATFORM_PI_BCM2836 0x40012340 = 0x40012340 % 0x40000000 ∧
     translate_fb_address PLATFORM_PI_BCM2837 0x40012340 = 0x40012340 % 0x40000000 ∧
     translate_fb_address PLATFORM_PI_BCM2837B0 0x40012340 = 0x40012340 % 0x40000000 ∧
     translate_fb_address PLATFORM_PI_BCM2711 0xC0012340 = 0x00012340 ∧
     translate_fb_address PLATFORM_PI_BCM2835 0x40012340 = 0x00012340 ∧
     (setup_framebuffer pi1_profile
        { code := 0x80000000, set_width := 640, set_height := 480,
          fb_address := 0x40012340, fb_size := 0, pitch := 2560 }
        640 480 console_zero).map (fun t => t.framebuffer) =
       some (some (translate_fb_address pi1_profile.platform 0x40012340))) :=
  ⟨⟨by decide, rfl⟩,
   claim_C2 pi1_profile
     { code := 0x80000000, set_width := 640, set_height := 480,
       fb_address := 0x40012340, fb_size := 0, pitch := 2560 }
     640 480 0x40012340 console_zero (by decide) rfl⟩

-- ---------------------------------------------------------------------------
-- C4: tie-break between BCM2836 and BCM2837
-- ---------------------------------------------------------------------------

/-- C4 counterexample: in an environment where the BCM2836-family mailbox
probe succeeds and the secondary ARM-timer probe fails, detect_platform
returns the BCM2836 profile, not the BCM2837 profile the claim asserts. -/
theorem claim_C4_counterexample :
    safe_peek32 env_timer_fail (BCM2836_PERIPHERAL_BASE + MAILBOX_OFFSET + 0x18) = true ∧
    safe_peek32 env_timer_fail (BCM2836_PERIPHERAL_BASE + 0x40000) = false ∧
    (detect_platform env_timer_fail).platform = PLATFORM_PI_BCM2836 ∧
    (detect_platform env_timer_fail).platform ≠ PLATFORM_PI_BCM2837 := by
  decide

/-- C4 amended: in the BCM2836/BCM2837 family branch, detect_platform assumes
the more common BCM2837 sub-revision when the secondary ARM-timer probe
succeeds; when that probe fails it returns the BCM2836 profile instead. -/
theorem claim_C4 (env : Nat → Nat)
    (hq : (safe_peek32 env (QEMU_PL050_KBD_BASE + 0x04) &&
           (env (QEMU_PL050_KBD_BASE + 0x04) &&& 0xFF != 0xFF)) = false)
    (h2711 : safe_peek32 env (BCM2711_PERIPHERAL_BASE + MAILBOX_OFFSET + 0x18) = false)
    (h2836 : safe_peek32 env (BCM2836_PERIPHERAL_BASE + MAILBOX_OFFSET + 0x18) = true) :
    (safe_peek32 env (BCM2836_PERIPHERAL_BASE + 0x40000) = false →
       (detect_platform env).platform = PLATFORM_PI_BCM2836) ∧
    (safe_peek32 env (BCM2836_PERIPHERAL_BASE + 0x40000) = true →
       (detect_platform env).platform = PLATFORM_PI_BCM2837) := by
  constructor <;> intro ht <;> simp [detect_platform, hq, h2711, h2836, ht]

/-- Witness for claim_C4 at the fixture environment. -/
theorem claim_C4_witness :
    ((safe_peek32 env_timer_fail (QEMU_PL050_KBD_BASE + 0x04) &&
      (env_timer_fail (QEMU_PL050_KBD_BASE + 0x04) &&& 0xFF != 0xFF)) = false ∧
     safe_peek32 env_timer_fail (BCM2711_PERIPHERAL_BASE + MAILBOX_OFFSET + 0x18) = false ∧
     safe_peek32 env_timer_fail (BCM2836_PERIPHERAL_BASE + MAILBOX_OFFSET + 0x18) = true) ∧
    ((safe_peek32 env_timer_fail (BCM2836_PERIPHERAL_BASE + 0x40000) = false →
       (detect_platform env_timer_fail).platform = PLATFORM_PI_BCM2836) ∧
     (safe_peek32 env_timer_fail (BCM2836_PERIPHERAL_BASE + 0x40000) = true →
       (detect_platform env_timer_fail).platform = PLATFORM_PI_BCM2837)) :=
  ⟨by decide, claim_C4 env_timer_fail (by decide) (by decide) (by decide)⟩

-- ---------------------------------------------------------------------------
-- C9: undocumented console_putchar behavior
-- ---------------------------------------------------------------------------

/-- C9: console_putchar on a carriage return resets the column and changes
nothing else, and on any byte that is neither '\n', '\t', '\b', '\r' nor in
the printable range 32-126 leaves the console state entirely unchanged. -/
theorem claim_C9 :
    (∀ s : universal_console_t, console_putchar s 13 = { s with current_col := 0 }) ∧
    (∀ (s : universal_console_t) (c : Nat), c < 256 → c ≠ 10 → c ≠ 13 → c ≠ 9 →
       c ≠ 8 → ¬(32 ≤ c ∧ c ≤ 126) → console_putchar s c = s) := by
  constructor
  · intro s
    simp [console_putchar]
  · intro s c _ h10 h13 h9 h8 hpr
    simp [console_putchar, h10, h13, h9, h8, hpr]

/-- Witness for claim_C9 at byte 200 on a freshly initialised console. -/
theorem claim_C9_witness :
    ((200 : Nat) < 256 ∧ (200 : Nat) ≠ 10 ∧ (200 : Nat) ≠ 13 ∧ (200 : Nat) ≠ 9 ∧
     (200 : Nat) ≠ 8 ∧ ¬(32 ≤ (200 : Nat) ∧ (200 : Nat) ≤ 126)) ∧
    console_putchar (fresh_console 80 25) 200 = fresh_console 80 25 :=
  ⟨by decide,
   claim_C9.2 (fresh_console 80 25) 200 (by decide) (by decide) (by decide) (by decide)
     (by decide) (by decide)⟩

-- ---------------------------------------------------------------------------
-- C8: console geometry computed by setup_framebuffer
-- ---------------------------------------------------------------------------

/-- C8 counterexample: on the emulator path setup_framebuffer succeeds for
the degenerate geometry 8x16 with console_cols = 1 and console_rows = 0,
below the documented minimums of 40 and 15: the minimum clamp is absent from
that path. -/
theorem claim_C8_counterexample :
    (setup_framebuffer qemu_profile
       { code := 0, set_width := 0, set_height := 0, fb_address := 0, fb_size := 0,
         pitch := 0 } 8 16 console_zero).map
      (fun t => (t.console_cols, t.console_rows)) = some (1, 0) ∧
    (1 : Nat) < MIN_CONSOLE_COLS ∧ (0 : Nat) < MIN_CONSOLE_ROWS := by
  refine ⟨?_, by decide, by decide⟩
  decide

/-- C8 amended: on the firmware-mailbox path a successful setup_framebuffer
computes console_cols = width / 8 and console_rows = (height - 16) / 16 from
the negotiated geometry and clamps each up to the minimums 40 and 15; the
emulator path computes the same divisions but applies no minimum clamp, so
only the firmware path is guaranteed a non-degenerate console (the emulator
path is invoked with the fixed 640x480 geometry, which yields 80x29). -/
theorem claim_C8 (p : platform_info_t) (resp : fb_response_t)
    (width height : Nat) (s : universal_console_t) :
    (p.platform = PLATFORM_QEMU_VERSATILE →
       (setup_framebuffer p resp width height s).map
         (fun t => (t.console_cols, t.console_rows)) =
       some (width / FONT_WIDTH, sub32 height STATUS_BAR_HEIGHT / FONT_HEIGHT)) ∧
    (mailbox_available p = true → resp.code = 0x80000000 →
       (setup_framebuffer p resp width height s).map
         (fun t => (t.console_cols, t.console_rows)) =
       some (max (resp.set_width / FONT_WIDTH) MIN_CONSOLE_COLS,
             max (sub32 resp.set_height STATUS_BAR_HEIGHT / FONT_HEIGHT)
               MIN_CONSOLE_ROWS)) ∧
    (setup_framebuffer qemu_profile resp 640 480 s).map
      (fun t => (t.console_cols, t.console_rows)) = some (80, 29) := by
  refine ⟨?_, ?_, ?_⟩
  · intro hq
    simp [setup_framebuffer, hq]
  · intro hmb hcode
    have hne : p.platform ≠ PLATFORM_QEMU_VERSATILE := by
      simp [mailbox_available, Bool.and_eq_true] at hmb
      exact hmb.2
    simp [setup_framebuffer, hne, hmb, hcode, MIN_CONSOLE_COLS, MIN_CONSOLE_ROWS]
    constructor <;> rw [Nat.max_def] <;> split <;> split <;> omega
  · have hq : qemu_profile.platform = PLATFORM_QEMU_VERSATILE := by decide
    simp [setup_framebuffer, hq]
    decide

/-- Witness for claim_C8 at the BCM2835 profile with a degenerate negotiated
8x16 response, which the firmware path clamps to 40x15. -/
theorem claim_C8_witness :
    (pi1_profile.platform = PLATFORM_QEMU_VERSATILE →
       (setup_framebuffer pi1_profile
          { code := 0x80000000, set_width := 8, set_height := 16, fb_address := 0,
            fb_size := 0, pitch := 32 } 8 16 console_zero).map
         (fun t => (t.console_cols, t.console_rows)) =
       some (8 / FONT_WIDTH, sub32 16 STATUS_BAR_HEIGHT / FONT_HEIGHT)) ∧
    (mailbox_available pi1_profile = true →
     ({ code := 0x80000000, set_width := 8, set_height := 16, fb_address := 0,
        fb_size := 0, pitch := 32 } : fb_response_t).code = 0x80000000 →
       (setup_framebuffer pi1_profile
          { code := 0x80000000, set_width := 8, set_height := 16, fb_address := 0,
            fb_size := 0, pitch := 32 } 8 16 console_zero).map
         (fun t => (t.console_cols, t.console_rows)) =
       some (max (8 / FONT_WIDTH) MIN_CONSOLE_COLS,
             max (sub32 16 STATUS_BAR_HEIGHT / FONT_HEIGHT) MIN_CONSOLE_ROWS)) ∧
    (setup_framebuffer qemu_profile
       { code := 0x80000000, set_width := 8, set_height := 16, fb_address := 0,
         fb_size := 0, pitch := 32 } 640 480 console_zero).map
      (fun t => (t.console_cols, t.console_rows)) = some (80, 29) :=
  claim_C8 pi1_profile
    { code := 0x80000000, set_width := 8, set_height := 16, fb_address := 0,
      fb_size := 0, pitch := 32 } 8 16 console_zero

-- ---------------------------------------------------------------------------
-- C3: fatality of display-negotiation failure
-- ---------------------------------------------------------------------------

/-- Subsidiary fact: every profile produced by detect_platform either has an
available mailbox or is the QEMU profile. -/
theorem detect_platform_mailbox (env : Nat → Nat) :
    mailbox_available (detect_platform env) = true ∨
    (detect_platform env).platform = PLATFORM_QEMU_VERSATILE := by
  unfold detect_platform
  split
  · exact Or.inr rfl
  · split
    · exact Or.inl (by decide)
    · split
      · split
        · exact Or.inl (by decide)
        · exact Or.inl (by decide)
      · exact Or.inl (by decide)

/-- C3 counterexample: with every probe failing (so the BCM2835 profile is
detected) and a firmware framebuffer response code of 0 (not 0x80000000),
universal_console_init aborts with the -1 failure return (`none`) instead of
completing with a usable console. -/
theorem claim_C3_counterexample :
    ({ code := 0, set_width := 0, set_height := 0, fb_address := 0, fb_size := 0,
       pitch := 0 } : fb_response_t).code ≠ 0x80000000 ∧
    universal_console_init env_zero
      { code := 0, physical_width := 0, physical_height := 0 }
      { code := 0, set_width := 0, set_height := 0, fb_address := 0, fb_size := 0,
        pitch := 0 } = none := by
  exact ⟨by decide, rfl⟩

/-- C3 amended: platform detection and resolution detection never fail (every
environment yields a concrete profile and a positive geometry) and the
renderer degrades to a no-op when no framebuffer address is configured, but a
firmware mailbox response code other than 0x80000000 during framebuffer
allocation is fatal to initialisation: setup_framebuffer returns -1 and
universal_console_init aborts with -1 on every real-hardware profile. -/
theorem claim_C3 (env : Nat → Nat) (p : platform_info_t)
    (sizeResp : size_response_t) (fbResp : fb_response_t) (width height : Nat)
    (s : universal_console_t) (fb : Nat → Nat) :
    (detect_platform env).platform ≠ PLATFORM_UNKNOWN ∧
    (0 < (detect_display_resolution p sizeResp).2.1 ∧
     0 < (detect_display_resolution p sizeResp).2.2) ∧
    (s.framebuffer = none → render_console p s fb = fb) ∧
    (mailbox_available p = true → fbResp.code ≠ 0x80000000 →
       setup_framebuffer p fbResp width height s = none) ∧
    ((detect_platform env).platform ≠ PLATFORM_QEMU_VERSATILE →
     fbResp.code ≠ 0x80000000 →
       universal_console_init env sizeResp fbResp = none) := by
  have hsetup : ∀ (q : platform_info_t) (w h : Nat) (t : universal_console_t),
      mailbox_available q = true → fbResp.code ≠ 0x80000000 →
      setup_framebuffer q fbResp w h t = none := by
    intro q w h t hmb hc
    have hne : q.platform ≠ PLATFORM_QEMU_VERSATILE := by
      simp [mailbox_available, Bool.and_eq_true] at hmb
      exact hmb.2
    simp [setup_framebuffer, hne, hmb, hc]
  refine ⟨?_, ?_, ?_, fun hmb hc => hsetup p width height s hmb hc, ?_⟩
  · unfold detect_platform
    split
    · simp
    · split
      · simp
      · split
        · split <;> simp
        · simp
  · unfold detect_display_resolution
    split
    · exact ⟨by norm_num, by norm_num⟩
    · split
      · exact ⟨by norm_num, by norm_num⟩
      · split
        · next h => exact ⟨h.2.1, h.2.2⟩
        · split <;> exact ⟨by norm_num, by norm_num⟩
  · intro h
    simp [render_console, h]
  · intro hne hc
    have hmb := (detect_platform_mailbox env).resolve_right hne
    unfold universal_console_init
    dsimp only
    rw [hsetup _ _ _ _ hmb hc]

/-- Witness for claim_C3 at the all-zero probe environment and a failing
framebuffer response. -/
theorem claim_C3_witness :
    ((fresh_console 80 25).framebuffer = none ∧
     mailbox_available pi1_profile = true ∧
     ({ code := 0, set_width := 0, set_height := 0, fb_address := 0, fb_size := 0,
        pitch := 0 } : fb_response_t).code ≠ 0x80000000 ∧
     (detect_platform env_zero).platform ≠ PLATFORM_QEMU_VERSATILE) ∧
    ((detect_platform env_zero).platform ≠ PLATFORM_UNKNOWN ∧
     (0 < (detect_display_resolution pi1_profile
             { code := 0, physical_width := 0, physical_height := 0 }).2.1 ∧
      0 < (detect_display_resolution pi1_profile
             { code := 0, physical_width := 0, physical_height := 0 }).2.2) ∧
     ((fresh_console 80 25).framebuffer = none →
        render_console pi1_profile (fresh_console 80 25) (fun _ => 0) = fun _ => 0) ∧
     (mailbox_available pi1_profile = true →
      ({ code := 0, set_width := 0, set_height := 0, fb_address := 0, fb_size := 0,
         pitch := 0 } : fb_response_t).code ≠ 0x80000000 →
        setup_framebuffer pi1_profile
          { code := 0, set_width := 0, set_height := 0, fb_address := 0, fb_size := 0,
            pitch := 0 } 640 480 (fresh_console 80 25) = none) ∧
     ((detect_platform env_zero).platform ≠ PLATFORM_QEMU_VERSATILE →
      ({ code := 0, set_width := 0, set_height := 0, fb_address := 0, fb_size := 0,
         pitch := 0 } : fb_response_t).code ≠ 0x80000000 →
        universal_console_init env_zero
          { code := 0, physical_width := 0, physical_height := 0 }
          { code := 0, set_width := 0, set_height := 0, fb_address := 0, fb_size := 0,
            pitch := 0 } = none)) :=
  ⟨⟨rfl, by decide, by decide, by decide⟩,
   claim_C3 env_zero pi1_profile
     { code := 0, physical_width := 0, physical_height := 0 }
     { code := 0, set_width := 0, set_height := 0, fb_address := 0, fb_size := 0,
       pitch := 0 } 640 480 (fresh_console 80 25) (fun _ => 0)⟩

-- ---------------------------------------------------------------------------
-- C5: manual scroll clamping
-- ---------------------------------------------------------------------------

/-- Reading a uint32 value below 2^31 through an int cast is the identity. -/
theorem toInt32_small (n : Nat) (h : n < 2147483648) : toInt32 n = n := by
  unfold toInt32
  split <;> omega

/-- Storing a non-negative int below 2^32 into a uint32 slot keeps its value. -/
theorem u32ofInt_small (i : Int) (h0 : 0 ≤ i) (h1 : i < 4294967296) :
    (u32ofInt i : Int) = i := by
  unfold u32ofInt
  omega

/-- Value stored into scroll_position and display_start by handle_scroll, and
the fact that it either updates both fields to that value or leaves the state
untouched. -/
theorem handle_scroll_char (s : universal_console_t) (delta : Int)
    (hsp : s.scroll_position < 2147483648) (hcl : s.current_line < 2147483648)
    (hrows : s.console_rows < 2147483648) :
    ((handle_scroll s delta).scroll_position : Int) =
      min (max ((s.scroll_position : Int) + delta) 0)
        (max 0 ((s.current_line : Int) - (s.console_rows : Int) + 1)) ∧
    ((handle_scroll s delta).display_start = (handle_scroll s delta).scroll_position ∨
     handle_scroll s delta = s) := by
  unfold handle_scroll
  rw [toInt32_small _ hsp, toInt32_small _ hcl, toInt32_small _ hrows]
  dsimp only
  simp only [Int.max_def, Int.min_def]
  split_ifs <;>
    first
      | exact ⟨by simp only [u32ofInt]; omega, Or.inl rfl⟩
      | exact ⟨by omega, Or.inr rfl⟩

/-- C5 counterexample: from the reachable state with current_line = 2000 and
scroll_position = display_start = 1500 (console_rows = 15), scroll(-1000)
clamps to 500, not to the 0 the claim asserts for every state. -/
theorem claim_C5_counterexample :
    (handle_scroll
      { fresh_console 80 15 with
        current_line := 2000, scroll_position := 1500, display_start := 1500 }
      (-1000)).scroll_position = 500 ∧ (500 : Nat) ≠ 0 := by
  constructor
  · decide
  · decide

/-- C5 amended: handle_scroll(delta) always sets scroll_position to
scroll_position + delta clamped to [0, max(0, current_line - console_rows + 1)];
it sets display_start = scroll_position whenever the clamped value differs
from the previous scroll_position (otherwise the state is untouched, so the
equality display_start == scroll_position is preserved whenever it held
before); scroll(-1000) yields 0 exactly on states with scroll_position ≤ 1000,
and scroll(+1000) yields the clamp maximum exactly on states where
scroll_position + 1000 reaches it. -/
theorem claim_C5 (s : universal_console_t) (delta : Int)
    (hsp : s.scroll_position < 2147483648) (hcl : s.current_line < 2147483648)
    (hrows : s.console_rows < 2147483648) :
    ((handle_scroll s delta).scroll_position : Int) =
      min (max ((s.scroll_position : Int) + delta) 0)
        (max 0 ((s.current_line : Int) - (s.console_rows : Int) + 1)) ∧
    (((handle_scroll s delta).scroll_position : Int) ≠ (s.scroll_position : Int) →
       (handle_scroll s delta).display_start = (handle_scroll s delta).scroll_position) ∧
    (s.display_start = s.scroll_position →
       (handle_scroll s delta).display_start = (handle_scroll s delta).scroll_position) ∧
    (s.scroll_position ≤ 1000 → ((handle_scroll s (-1000)).scroll_position : Int) = 0) ∧
    (max 0 ((s.current_line : Int) - (s.console_rows : Int) + 1) ≤
        (s.scroll_position : Int) + 1000 →
       ((handle_scroll s 1000).scroll_position : Int) =
         max 0 ((s.current_line : Int) - (s.console_rows : Int) + 1)) := by
  obtain ⟨h1, h2⟩ := handle_scroll_char s delta hsp hcl hrows
  obtain ⟨hdown, _⟩ := handle_scroll_char s (-1000) hsp hcl hrows
  obtain ⟨hup, _⟩ := handle_scroll_char s 1000 hsp hcl hrows
  refine ⟨h1, ?_, ?_, ?_, ?_⟩
  · intro hne
    rcases h2 with h | h
    · exact h
    · rw [h] at hne
      exact absurd rfl hne
  · intro hds
    rcases h2 with h | h
    · exact h
    · rw [h]
      exact hds
  · intro hle
    rw [hdown]
    simp only [Int.max_def, Int.min_def]
    split_ifs <;> omega
  · intro hge
    rw [hup]
    simp only [Int.max_def, Int.min_def] at hge ⊢
    split_ifs at hge ⊢ <;> omega

/-- Witness for claim_C5 on a freshly initialised 80x15 console with delta 7. -/
theorem claim_C5_witness :
    ((fresh_console 80 15).scroll_position < 2147483648 ∧
     (fresh_console 80 15).current_line < 2147483648 ∧
     (fresh_console 80 15).console_rows < 2147483648) ∧
    (((handle_scroll (fresh_console 80 15) 7).scroll_position : Int) =
      min (max (((fresh_console 80 15).scroll_position : Int) + 7) 0)
        (max 0 (((fresh_console 80 15).current_line : Int) -
          ((fresh_console 80 15).console_rows : Int) + 1)) ∧
     (((handle_scroll (fresh_console 80 15) 7).scroll_position : Int) ≠
        ((fresh_console 80 15).scroll_position : Int) →
       (handle_scroll (fresh_console 80 15) 7).display_start =
         (handle_scroll (fresh_console 80 15) 7).scroll_position) ∧
     ((fresh_console 80 15).display_start = (fresh_console 80 15).scroll_position →
       (handle_scroll (fresh_console 80 15) 7).display_start =
         (handle_scroll (fresh_console 80 15) 7).scroll_position) ∧
     ((fresh_console 80 15).scroll_position ≤ 1000 →
       ((handle_scroll (fresh_console 80 15) (-1000)).scroll_position : Int) = 0) ∧
     (max 0 (((fresh_console 80 15).current_line : Int) -
          ((fresh_console 80 15).console_rows : Int) + 1) ≤
        ((fresh_console 80 15).scroll_position : Int) + 1000 →
       ((handle_scroll (fresh_console 80 15) 1000).scroll_position : Int) =
         max 0 (((fresh_console 80 15).current_line : Int) -
           ((fresh_console 80 15).console_rows : Int) + 1))) :=
  ⟨⟨by decide, by decide, by decide⟩,
   claim_C5 (fresh_console 80 15) 7 (by decide) (by decide) (by decide)⟩

-- ---------------------------------------------------------------------------
-- C7: PS/2 mouse packet decoding
-- ---------------------------------------------------------------------------

/-- uint32 subtraction without borrow is plain subtraction. -/
theorem sub32_small (a b : Nat) (h : b ≤ a) (ha : a < 4294967296) :
    sub32 a b = a - b := by
  unfold sub32
  omega

/-- handle_scroll leaves the pointer position untouched. -/
theorem handle_scroll_mouse_x (s : universal_console_t) (delta : Int) :
    (handle_scroll s delta).mouse_x = s.mouse_x := by
  unfold handle_scroll
  dsimp only
  rw [apply_ite universal_console_t.mouse_x]
  simp

/-- handle_scroll leaves the vertical pointer position untouched. -/
theorem handle_scroll_mouse_y (s : universal_console_t) (delta : Int) :
    (handle_scroll s delta).mouse_y = s.mouse_y := by
  unfold handle_scroll
  dsimp only
  rw [apply_ite universal_console_t.mouse_y]
  simp

/-- The scroll fields computed by handle_scroll depend only on the scroll
fields, current line and row count of the state. -/
theorem handle_scroll_sp_ds (t s : universal_console_t) (delta : Int)
    (hsp : t.scroll_position = s.scroll_position)
    (hcl : t.current_line = s.current_line)
    (hrows : t.console_rows = s.console_rows)
    (hds : t.display_start = s.display_start) :
    (handle_scroll t delta).scroll_position = (handle_scroll s delta).scroll_position ∧
    (handle_scroll t delta).display_start = (handle_scroll s delta).display_start := by
  unfold handle_scroll
  dsimp only
  simp only [apply_ite universal_console_t.scroll_position,
    apply_ite universal_console_t.display_start]
  rw [hsp, hcl, hrows, hds]
  exact ⟨rfl, rfl⟩

/-- Specialisation: updating only the pointer position does not change the
scroll outcome of handle_scroll. -/
theorem handle_scroll_mouse_update_sp (s : universal_console_t) (a b delta : Int) :
    (handle_scroll { s with mouse_x := a, mouse_y := b } delta).scroll_position =
      (handle_scroll s delta).scroll_position ∧
    (handle_scroll { s with mouse_x := a, mouse_y := b } delta).display_start =
      (handle_scroll s delta).display_start :=
  handle_scroll_sp_ds _ s delta rfl rfl rfl rfl

/-- C7: on the third packet byte the decoder adds the signed dx to mouse_x,
subtracts the signed dy from mouse_y, clamps both into [0, width-1] and
[0, height-1], stores the button mask, and scrolls by exactly 3 lines in the
direction of dy exactly when the right button (bit 1) is down and dy is
non-zero; the packet (0x08, 5, -3) moves the pointer by (+5, +3), reports
buttons 0x08 and issues no scroll. -/
theorem claim_C7 (s : universal_console_t) (p0 p1 p2 : Nat)
    (hp0 : p0 < 256) (hw1 : 1 ≤ s.width) (hw : s.width < 2147483648)
    (hh1 : 1 ≤ s.height) (hh : s.height < 2147483648) :
    (handle_mouse_input s p0 p1 p2).mouse_x =
      min (max (s.mouse_x + toInt8 p1) 0) ((s.width : Int) - 1) ∧
    (handle_mouse_input s p0 p1 p2).mouse_y =
      min (max (s.mouse_y - toInt8 p2) 0) ((s.height : Int) - 1) ∧
    (handle_mouse_input s p0 p1 p2).mouse_buttons = p0 ∧
    (p0 &&& 0x02 ≠ 0 ∧ toInt8 p2 ≠ 0 →
       (handle_mouse_input s p0 p1 p2).scroll_position =
         (handle_scroll s (if 0 < toInt8 p2 then 3 else -3)).scroll_position ∧
       (handle_mouse_input s p0 p1 p2).display_start =
         (handle_scroll s (if 0 < toInt8 p2 then 3 else -3)).display_start) ∧
    (¬(p0 &&& 0x02 ≠ 0 ∧ toInt8 p2 ≠ 0) →
       (handle_mouse_input s p0 p1 p2).scroll_position = s.scroll_position ∧
       (handle_mouse_input s p0 p1 p2).display_start = s.display_start) ∧
    ((handle_mouse_input mouse_state 8 5 253).mouse_buttons = 8 ∧
     (handle_mouse_input mouse_state 8 5 253).mouse_x = mouse_state.mouse_x + 5 ∧
     (handle_mouse_input mouse_state 8 5 253).mouse_y = mouse_state.mouse_y + 3 ∧
     (handle_mouse_input mouse_state 8 5 253).scroll_position =
       mouse_state.scroll_position ∧
     (handle_mouse_input mouse_state 8 5 253).display_start =
       mouse_state.display_start) := by
  have hmod : p0 % 256 = p0 := Nat.mod_eq_of_lt hp0
  have hsubw : sub32 s.width 1 = s.width - 1 := sub32_small _ _ hw1 (by omega)
  have hsubh : sub32 s.height 1 = s.height - 1 := sub32_small _ _ hh1 (by omega)
  have hw2 : toInt32 s.width = s.width := toInt32_small _ hw
  have hh2 : toInt32 s.height = s.height := toInt32_small _ hh
  have hw3 : toInt32 (s.width - 1) = ((s.width : Int) - 1) := by
    rw [toInt32_small _ (by omega)]
    omega
  have hh3 : toInt32 (s.height - 1) = ((s.height : Int) - 1) := by
    rw [toInt32_small _ (by omega)]
    omega
  unfold handle_mouse_input
  dsimp only
  rw [hmod, hsubw, hsubh, hw2, hh2, hw3, hh3]
  by_cases hbt : p0 &&& 2 ≠ 0 ∧ toInt8 p2 ≠ 0
  · rw [if_pos hbt]
    refine ⟨?_, ?_, rfl, fun _ => handle_scroll_mouse_update_sp s _ _ _,
      fun h => absurd hbt h, by decide⟩
    · rw [handle_scroll_mouse_x]
      dsimp only
      simp only [Int.max_def, Int.min_def]
      split_ifs <;> omega
    · rw [handle_scroll_mouse_y]
      dsimp only
      simp only [Int.max_def, Int.min_def]
      split_ifs <;> omega
  · rw [if_neg hbt]
    refine ⟨?_, ?_, rfl, fun h => absurd h hbt, fun _ => ⟨rfl, rfl⟩, by decide⟩
    · dsimp only
      simp only [Int.max_def, Int.min_def]
      split_ifs <;> omega
    · dsimp only
      simp only [Int.max_def, Int.min_def]
      split_ifs <;> omega

/-- Witness for claim_C7 at the example state and packet (0x08, 5, -3). -/
theorem claim_C7_witness :
    ((8 : Nat) < 256 ∧ 1 ≤ mouse_state.width ∧ mouse_state.width < 2147483648 ∧
     1 ≤ mouse_state.height ∧ mouse_state.height < 2147483648) ∧
    ((handle_mouse_input mouse_state 8 5 253).mouse_x =
      min (max (mouse_state.mouse_x + toInt8 5) 0) ((mouse_state.width : Int) - 1) ∧
     (handle_mouse_input mouse_state 8 5 253).mouse_y =
      min (max (mouse_state.mouse_y - toInt8 253) 0) ((mouse_state.height : Int) - 1) ∧
     (handle_mouse_input mouse_state 8 5 253).mouse_buttons = 8 ∧
     ((8 : Nat) &&& 0x02 ≠ 0 ∧ toInt8 253 ≠ 0 →
       (handle_mouse_input mouse_state 8 5 253).scroll_position =
         (handle_scroll mouse_state (if 0 < toInt8 253 then 3 else -3)).scroll_position ∧
       (handle_mouse_input mouse_state 8 5 253).display_start =
         (handle_scroll mouse_state (if 0 < toInt8 253 then 3 else -3)).display_start) ∧
     (¬((8 : Nat) &&& 0x02 ≠ 0 ∧ toInt8 253 ≠ 0) →
       (handle_mouse_input mouse_state 8 5 253).scroll_position =
         mouse_state.scroll_position ∧
       (handle_mouse_input mouse_state 8 5 253).display_start =
         mouse_state.display_start) ∧
     ((handle_mouse_input mouse_state 8 5 253).mouse_buttons = 8 ∧
      (handle_mouse_input mouse_state 8 5 253).mouse_x = mouse_state.mouse_x + 5 ∧
      (handle_mouse_input mouse_state 8 5 253).mouse_y = mouse_state.mouse_y + 3 ∧
      (handle_mouse_input mouse_state 8 5 253).scroll_position =
        mouse_state.scroll_position ∧
      (handle_mouse_input mouse_state 8 5 253).display_start =
        mouse_state.display_start)) :=
  ⟨⟨by decide, by decide, by decide, by decide, by decide⟩,
   claim_C7 mouse_state 8 5 253 (by decide) (by decide) (by decide) (by decide) (by decide)⟩

-- ---------------------------------------------------------------------------
-- C10: the display_start == scroll_position invariant and the End command
-- ---------------------------------------------------------------------------

/-- console_newline keeps display_start equal to scroll_position: the
auto-follow branch writes the same value into both. -/
theorem console_newline_ds_sp (s : universal_console_t)
    (h : s.display_start = s.scroll_position) :
    (console_newline s).display_start = (console_newline s).scroll_position := by
  unfold console_newline scroll_buffer_up
  dsimp only
  simp only [apply_ite universal_console_t.display_start,
    apply_ite universal_console_t.scroll_position]
  simp [h]

/-- console_putchar keeps display_start equal to scroll_position. -/
theorem console_putchar_ds_sp (s : universal_console_t) (c : Nat)
    (h : s.display_start = s.scroll_position) :
    (console_putchar s c).display_start = (console_putchar s c).scroll_position := by
  unfold console_putchar
  dsimp only
  split_ifs <;>
    first
      | exact h
      | exact console_newline_ds_sp _ h

/-- handle_scroll keeps display_start equal to scroll_position. -/
theorem handle_scroll_ds_sp (s : universal_console_t) (delta : Int)
    (h : s.display_start = s.scroll_position) :
    (handle_scroll s delta).display_start = (handle_scroll s delta).scroll_position := by
  unfold handle_scroll
  dsimp only
  simp only [apply_ite universal_console_t.display_start,
    apply_ite universal_console_t.scroll_position]
  simp [h]

/-- C10: display_start == scroll_position holds after initialisation and is
preserved by every console_putchar, every handle_scroll and the Home command,
but the End command breaks it: when current_line ≥ console_rows > 1 it sets
scroll_position to current_line, which exceeds both the new display_start
(current_line - console_rows + 1) and the documented clamp maximum
max(0, current_line - console_rows + 1). -/
theorem claim_C10 (cols rows : Nat) (s : universal_console_t) (c : Nat) (delta : Int) :
    (fresh_console cols rows).display_start = (fresh_console cols rows).scroll_position ∧
    (s.display_start = s.scroll_position →
       (console_putchar s c).display_start = (console_putchar s c).scroll_position) ∧
    (s.display_start = s.scroll_position →
       (handle_scroll s delta).display_start = (handle_scroll s delta).scroll_position) ∧
    (handle_keyboard_input s 0x47).display_start =
      (handle_keyboard_input s 0x47).scroll_position ∧
    (s.console_rows ≤ s.current_line → 1 < s.console_rows →
     s.current_line < 4294967296 →
       (handle_keyboard_input s 0x4F).scroll_position = s.current_line ∧
       (handle_keyboard_input s 0x4F).display_start =
         s.current_line - s.console_rows + 1 ∧
       (handle_keyboard_input s 0x4F).display_start <
         (handle_keyboard_input s 0x4F).scroll_position ∧
       max 0 (s.current_line - s.console_rows + 1) <
         (handle_keyboard_input s 0x4F).scroll_position) := by
  refine ⟨rfl, console_putchar_ds_sp s c, handle_scroll_ds_sp s delta, ?_, ?_⟩
  · simp [handle_keyboard_input]
  · intro hcl hrows hcl32
    have hk : handle_keyboard_input s 0x4F =
        { s with scroll_position := s.current_line,
                 display_start :=
                   if s.current_line ≥ s.console_rows then
                     u32 (sub32 s.current_line s.console_rows + 1)
                   else 0 } := by
      simp [handle_keyboard_input]
    rw [hk]
    dsimp only
    rw [if_pos hcl, sub32_small _ _ hcl hcl32]
    unfold u32
    refine ⟨rfl, by omega, by omega, by omega⟩

/-- Witness for claim_C10 at a state reached by the End command shape with
current_line 100 on a 80x25 console. -/
theorem claim_C10_witness :
    (({ fresh_console 80 25 with current_line := 100 } :
        universal_console_t).display_start =
       ({ fresh_console 80 25 with current_line := 100 } :
        universal_console_t).scroll_position ∧
     ({ fresh_console 80 25 with current_line := 100 } :
        universal_console_t).console_rows ≤ 100 ∧
     (1 : Nat) < 25 ∧ (100 : Nat) < 4294967296) ∧
    ((fresh_console 80 25).display_start = (fresh_console 80 25).scroll_position ∧
     (console_putchar { fresh_console 80 25 with current_line := 100 } 65).display_start =
       (console_putchar { fresh_console 80 25 with current_line := 100 } 65).scroll_position ∧
     (handle_scroll { fresh_console 80 25 with current_line := 100 } 3).display_start =
       (handle_scroll { fresh_console 80 25 with current_line := 100 } 3).scroll_position ∧
     (handle_keyboard_input { fresh_console 80 25 with current_line := 100 } 0x4F
        ).scroll_position = 100 ∧
     (handle_keyboard_input { fresh_console 80 25 with current_line := 100 } 0x4F
        ).display_start = 100 - 25 + 1 ∧
     (handle_keyboard_input { fresh_console 80 25 with current_line := 100 } 0x4F
        ).display_start <
       (handle_keyboard_input { fresh_console 80 25 with current_line := 100 } 0x4F
        ).scroll_position ∧
     max 0 (100 - 25 + 1) <
       (handle_keyboard_input { fresh_console 80 25 with current_line := 100 } 0x4F
        ).scroll_position) := by
  obtain ⟨h1, h2, h3, _, h5⟩ :=
    claim_C10 80 25 { fresh_console 80 25 with current_line := 100 } 65 3
  obtain ⟨k1, k2, k3, k4⟩ := h5 (by decide) (by decide) (by decide)
  exact ⟨⟨rfl, by decide, by decide, by decide⟩,
    ⟨h1, h2 rfl, h3 rfl, k1, k2, k3, k4⟩⟩

-- ---------------------------------------------------------------------------
-- C6: the auto-follow invariant
-- ---------------------------------------------------------------------------

/-- console_newline preserves the auto-follow invariant: below row
console_rows - 1 the display window stays pinned to the top, and from there on
display_start tracks current_line - console_rows + 1 exactly. -/
theorem console_newline_inv (rows : Nat) (s : universal_console_t)
    (h1 : 1 ≤ rows) (h2 : rows ≤ 3000)
    (hrows : s.console_rows = rows) (hbl : s.buffer_lines = 3000)
    (hcl : s.current_line < 3000)
    (hA : rows - 1 ≤ s.current_line → s.display_start + rows = s.current_line + 1)
    (hB : s.current_line < rows - 1 → s.display_start = 0) :
    (console_newline s).console_rows = rows ∧
    (console_newline s).buffer_lines = 3000 ∧
    (console_newline s).current_line < 3000 ∧
    (rows - 1 ≤ (console_newline s).current_line →
       (console_newline s).display_start + rows = (console_newline s).current_line + 1) ∧
    ((console_newline s).current_line < rows - 1 →
       (console_newline s).display_start = 0) := by
  have hd : s.display_start + rows = s.current_line + 1 ∨
      (s.display_start = 0 ∧ s.current_line < rows - 1) := by
    rcases le_or_lt (rows - 1) s.current_line with hc | hc
    · exact Or.inl (hA hc)
    · exact Or.inr ⟨hB hc, hc⟩
  unfold console_newline scroll_buffer_up
  dsimp only
  simp only [u32, sub32, hbl, hrows]
  have m1 : (s.current_line + 1) % 4294967296 = s.current_line + 1 := by omega
  rw [m1]
  simp only [apply_ite universal_console_t.display_start,
    apply_ite universal_console_t.console_rows,
    apply_ite universal_console_t.current_line,
    apply_ite universal_console_t.buffer_lines, ite_self]
  rcases hd with hd | hd <;>
    (split_ifs <;> refine ⟨?_, ?_, ?_, ?_, ?_⟩ <;> first | trivial | omega)

/-- console_putchar preserves the auto-follow invariant for every byte. -/
theorem console_putchar_inv (rows : Nat) (s : universal_console_t) (c : Nat)
    (h1 : 1 ≤ rows) (h2 : rows ≤ 3000)
    (hrows : s.console_rows = rows) (hbl : s.buffer_lines = 3000)
    (hcl : s.current_line < 3000)
    (hA : rows - 1 ≤ s.current_line → s.display_start + rows = s.current_line + 1)
    (hB : s.current_line < rows - 1 → s.display_start = 0) :
    (console_putchar s c).console_rows = rows ∧
    (console_putchar s c).buffer_lines = 3000 ∧
    (console_putchar s c).current_line < 3000 ∧
    (rows - 1 ≤ (console_putchar s c).current_line →
       (console_putchar s c).display_start + rows = (console_putchar s c).current_line + 1) ∧
    ((console_putchar s c).current_line < rows - 1 →
       (console_putchar s c).display_start = 0) := by
  unfold console_putchar
  dsimp only
  split_ifs <;>
    first
      | exact console_newline_inv rows _ h1 h2 hrows hbl hcl hA hB
      | exact ⟨hrows, hbl, hcl, hA, hB⟩

/-- The auto-follow invariant holds after any console_putchar run from a
state satisfying it. -/
theorem console_run_inv (rows : Nat) (h1 : 1 ≤ rows) (h2 : rows ≤ 3000)
    (cs : List Nat) :
    ∀ s : universal_console_t,
      s.console_rows = rows → s.buffer_lines = 3000 → s.current_line < 3000 →
      (rows - 1 ≤ s.current_line → s.display_start + rows = s.current_line + 1) →
      (s.current_line < rows - 1 → s.display_start = 0) →
      (cs.foldl console_putchar s).console_rows = rows ∧
      (cs.foldl console_putchar s).buffer_lines = 3000 ∧
      (cs.foldl console_putchar s).current_line < 3000 ∧
      (rows - 1 ≤ (cs.foldl console_putchar s).current_line →
         (cs.foldl console_putchar s).display_start + rows =
           (cs.foldl console_putchar s).current_line + 1) ∧
      ((cs.foldl console_putchar s).current_line < rows - 1 →
         (cs.foldl console_putchar s).display_start = 0) := by
  induction cs with
  | nil =>
    intro s hrows hbl hcl hA hB
    exact ⟨hrows, hbl, hcl, hA, hB⟩
  | cons c cs ih =>
    intro s hrows hbl hcl hA hB
    obtain ⟨a, b, c2, d, e⟩ := console_putchar_inv rows s c h1 h2 hrows hbl hcl hA hB
    exact ih (console_putchar s c) a b c2 d e

/-- C6: after any sequence of console_putchar calls from the freshly
initialised console with no manual scroll, display_start + console_rows - 1
equals current_line once current_line has reached console_rows - 1, and
display_start is still 0 before that. -/
theorem claim_C6 (cols rows : Nat) (h1 : 1 ≤ rows) (h2 : rows ≤ 3000)
    (cs : List Nat) :
    (rows - 1 ≤ (cs.foldl console_putchar (fresh_console cols rows)).current_line →
       (cs.foldl console_putchar (fresh_console cols rows)).display_start + (rows - 1) =
         (cs.foldl console_putchar (fresh_console cols rows)).current_line) ∧
    ((cs.foldl console_putchar (fresh_console cols rows)).current_line < rows - 1 →
       (cs.foldl console_putchar (fresh_console cols rows)).display_start = 0) := by
  obtain ⟨_, _, _, d, e⟩ :=
    console_run_inv rows h1 h2 cs (fresh_console cols rows) rfl rfl
      (by show (0 : Nat) < 3000; omega)
      (by
        intro h
        have h0 : (fresh_console cols rows).current_line = 0 := rfl
        rw [h0] at h
        show (0 : Nat) + rows = 0 + 1
        omega)
      (by intro h; rfl)
  refine ⟨fun h => ?_, e⟩
  have := d h
  omega

/-- Witness for claim_C6: an 80x15 console after printing three newlines and
a hundred characters. -/
theorem claim_C6_witness :
    ((1 : Nat) ≤ 15 ∧ (15 : Nat) ≤ 3000) ∧
    ((15 - 1 ≤ ((List.replicate 20 10).foldl console_putchar
        (fresh_console 80 15)).current_line →
       ((List.replicate 20 10).foldl console_putchar
          (fresh_console 80 15)).display_start + (15 - 1) =
         ((List.replicate 20 10).foldl console_putchar
            (fresh_console 80 15)).current_line) ∧
     (((List.replicate 20 10).foldl console_putchar
          (fresh_console 80 15)).current_line < 15 - 1 →
       ((List.replicate 20 10).foldl console_putchar
          (fresh_console 80 15)).display_start = 0)) :=
  ⟨⟨by decide, by decide⟩, claim_C6 80 15 (by decide) (by decide) (List.replicate 20 10)⟩

-- ---------------------------------------------------------------------------
-- C1: shift-scroll count and last-line clearing for a run of newlines
-- ---------------------------------------------------------------------------

/-- console_putchar dispatches a newline byte to the '\n' case. -/
theorem console_putchar_newline (s : universal_console_t) :
    console_putchar s 10 = console_newline s := rfl

/-- Effect of one console_newline on the run-relevant fields: below the last
buffer line it advances the cursor and touches neither the ghost scroll
counter nor the cells; on the last line it shift-scrolls once, leaving the
last line blank in the pending colors. -/
theorem console_newline_run_step (s : universal_console_t)
    (hbl : s.buffer_lines = 3000) (hcl : s.current_line < 3000) :
    (console_newline s).console_cols = s.console_cols ∧
    (console_newline s).buffer_lines = 3000 ∧
    (console_newline s).current_fg = s.current_fg ∧
    (console_newline s).current_bg = s.current_bg ∧
    (console_newline s).current_line = min (s.current_line + 1) 2999 ∧
    (s.current_line + 1 < 3000 →
       (console_newline s).scroll_events = s.scroll_events ∧
       (console_newline s).buffer = s.buffer) ∧
    (s.current_line + 1 = 3000 →
       (console_newline s).scroll_events = s.scroll_events + 1 ∧
       (∀ col, col < s.console_cols →
          (console_newline s).buffer 2999 col =
            { character := 32, foreground := s.current_fg, background := s.current_bg,
              attributes := 0 })) := by
  unfold console_newline scroll_buffer_up
  dsimp only
  simp only [u32, sub32, hbl]
  have m1 : (s.current_line + 1) % 4294967296 = s.current_line + 1 := by omega
  rw [m1]
  simp only [apply_ite universal_console_t.console_cols,
    apply_ite universal_console_t.buffer_lines,
    apply_ite universal_console_t.current_fg,
    apply_ite universal_console_t.current_bg,
    apply_ite universal_console_t.current_line,
    apply_ite universal_console_t.scroll_events,
    apply_ite universal_console_t.buffer, ite_self]
  split_ifs <;>
    refine ⟨?_, ?_, ?_, ?_, ?_, ?_, ?_⟩ <;>
      first
        | trivial
        | omega
        | (intro h; exact absurd h (by omega))
        | (intro h; exact ⟨rfl, rfl⟩)
        | (intro h; exact ⟨rfl, fun col hcol => by simp [hcol]⟩)

/-- Invariants of a run of n newline characters from the freshly initialised
console: the cursor is at line min n 2999, exactly max 0 (n - 2999)
shift-scrolls have happened, the colors are still white on black, and once at
least one scroll has happened the last buffer line is blank in those colors. -/
theorem put_newlines_spec (cols rows : Nat) :
    ∀ n : Nat,
      (put_newlines (fresh_console cols rows) n).console_cols = cols ∧
      (put_newlines (fresh_console cols rows) n).buffer_lines = 3000 ∧
      (put_newlines (fresh_console cols rows) n).current_fg = COLOR_WHITE ∧
      (put_newlines (fresh_console cols rows) n).current_bg = COLOR_BLACK ∧
      (put_newlines (fresh_console cols rows) n).current_line = min n 2999 ∧
      (put_newlines (fresh_console cols rows) n).scroll_events = n - 2999 ∧
      (3000 ≤ n → ∀ col, col < cols →
         (put_newlines (fresh_console cols rows) n).buffer 2999 col =
           { character := 32, foreground := COLOR_WHITE, background := COLOR_BLACK,
             attributes := 0 }) := by
  intro n
  induction n with
  | zero =>
    exact ⟨rfl, rfl, rfl, rfl, by show (0 : Nat) = min 0 2999; omega,
      by show (0 : Nat) = 0 - 2999; omega, fun h => absurd h (by omega)⟩
  | succ n ih =>
    obtain ⟨a1, a2, a3, a4, a5, a6, a7⟩ := ih
    have hstep := console_newline_run_step (put_newlines (fresh_console cols rows) n)
      a2 (by omega)
    obtain ⟨b1, b2, b3, b4, b5, b6, b7⟩ := hstep
    have hput : put_newlines (fresh_console cols rows) (n + 1) =
        console_newline (put_newlines (fresh_console cols rows) n) := rfl
    rw [hput]
    refine ⟨b1.trans a1, b2, b3.trans a3, b4.trans a4, by rw [b5, a5]; omega, ?_, ?_⟩
    · rcases lt_or_ge (n + 1) 3000 with hsmall | hbig
      · obtain ⟨e1, _⟩ := b6 (by omega)
        rw [e1, a6]
        omega
      · obtain ⟨e1, _⟩ := b7 (by omega)
        rw [e1, a6]
        omega
    · intro hn col hcol
      obtain ⟨_, e2⟩ := b7 (by omega)
      have := e2 col (by rw [a1]; exact hcol)
      rw [a3, a4] at this
      exact this

/-- C1 counterexample: from the freshly initialised console (buffer_lines =
3000), writing 3000 + 5 newlines performs 6 shift-scrolls, not the 5 the
claim asserts: the 3000th newline already scrolls, and so does each of the
five after it. -/
theorem claim_C1_counterexample :
    (put_newlines (fresh_console 80 25) (3000 + 5)).scroll_events = 6 ∧
    (put_newlines (fresh_console 80 25) (3000 + 5)).scroll_events ≠ 5 := by
  obtain ⟨_, _, _, _, _, h6, _⟩ := put_newlines_spec 80 25 (3000 + 5)
  rw [h6]
  omega

/-- C1 amended: writing buffer_lines + 5 newline characters from the freshly
initialised console causes exactly 6 shift-scroll events (the buffer_lines-th
through (buffer_lines+5)-th newlines each scroll), ends with current_line ==
buffer_lines - 1, and leaves every cell of the last buffer line holding the
blank character with the current background color. -/
theorem claim_C1 (cols rows col : Nat) (hcol : col < cols) :
    (put_newlines (fresh_console cols rows) (3000 + 5)).scroll_events = 6 ∧
    (put_newlines (fresh_console cols rows) (3000 + 5)).current_line = 3000 - 1 ∧
    (put_newlines (fresh_console cols rows) (3000 + 5)).buffer (3000 - 1) col =
      { character := 32,
        foreground := (put_newlines (fresh_console cols rows) (3000 + 5)).current_fg,
        background := (put_newlines (fresh_console cols rows) (3000 + 5)).current_bg,
        attributes := 0 } := by
  obtain ⟨_, _, h3, h4, h5, h6, h7⟩ := put_newlines_spec cols rows (3000 + 5)
  refine ⟨by rw [h6], by rw [h5]; omega, ?_⟩
  have h29 : (3000 : Nat) - 1 = 2999 := by norm_num
  have := h7 (by omega) col hcol
  rw [h3, h4, h29]
  exact this

/-- Witness for claim_C1 at an 80x25 console and column 3. -/
theorem claim_C1_witness :
    (3 : Nat) < 80 ∧
    ((put_newlines (fresh_console 80 25) (3000 + 5)).scroll_events = 6 ∧
     (put_newlines (fresh_console 80 25) (3000 + 5)).current_line = 3000 - 1 ∧
     (put_newlines (fresh_console 80 25) (3000 + 5)).buffer (3000 - 1) 3 =
       { character := 32,
         foreground := (put_newlines (fresh_console 80 25) (3000 + 5)).current_fg,
         background := (put_newlines (fresh_console 80 25) (3000 + 5)).current_bg,
         attributes := 0 }) :=
  ⟨by decide, claim_C1 80 25 3 (by decide)⟩

end Kernel
